import Mathlib

/-
Shallow embedding of homework.py, a fitness-tracker module: an InfoMessage
record with a fixed-format renderer, a Training base class with three
subclasses (Running, SportsWalking, Swimming), and a factory read_package
that validates raw sensor data and dispatches on a workout code.

Numbers are modelled as rationals. Fallible methods return Except Err.
Python raises ZeroDivisionError on division by zero, so every division
written with the / operator in the source is embedded through pydiv; the
explicit duration guard of Training.get_mean_speed raises ValueError,
embedded as Err.invalidDuration. The list comprehension and set display of
read_package become List.filter and List.toFinset.
-/

/-- The runtime failures the source can raise: the ValueError of the
duration guard, NotImplementedError of the abstract calorie method,
ZeroDivisionError from a division, the two ValueErrors of read_package,
and TypeError from a constructor called with the wrong number of
positional arguments. -/
inductive Err where
  | invalidDuration : Err
  | notImplemented (typeName : String) : Err
  | zeroDivision : Err
  | negativeValues (vals : Finset ℚ) : Err
  | unknownCode (code : String) (valid : Finset String) : Err
  | typeError : Err
deriving DecidableEq

/-- Python division: raises ZeroDivisionError when the divisor is zero. -/
def pydiv (a b : ℚ) : Except Err ℚ :=
  if b = 0 then .error .zeroDivision else .ok (a / b)

/-- InfoMessage dataclass: the computed summary of one training. -/
structure InfoMessage where
  training_type : String
  duration : ℚ
  distance : ℚ
  speed : ℚ
  calories : ℚ

/-- Round to the nearest integer, ties to the even integer, as Python
string formatting rounds a value. -/
def roundHalfEven (q : ℚ) : ℤ :=
  if q - ⌊q⌋ < 1/2 then ⌊q⌋
  else if q - ⌊q⌋ > 1/2 then ⌊q⌋ + 1
  else if ⌊q⌋ % 2 = 0 then ⌊q⌋ else ⌊q⌋ + 1

/-- Zero-pad a fractional part to exactly three digits. -/
def pad3 (n : ℕ) : String :=
  if n < 10 then "00" ++ toString n
  else if n < 100 then "0" ++ toString n
  else toString n

/-- Fixed-point rendering with exactly three digits after the point,
modelling the Python format spec .3f applied to each numeric field. -/
def formatFixed3 (q : ℚ) : String :=
  let n : ℤ := roundHalfEven (q * 1000)
  let sign := if q < 0 then "-" else ""
  sign ++ toString (n.natAbs / 1000) ++ "." ++ pad3 (n.natAbs % 1000)

/-- InfoMessage.get_message: the MESSAGE template of the source with the
five fields substituted, the four numeric ones through the .3f format
spec. -/
def InfoMessage.get_message (m : InfoMessage) : String :=
  "Тип тренировки: " ++ m.training_type ++
  "; Длительность: " ++ formatFixed3 m.duration ++
  " ч.; Дистанция: " ++ formatFixed3 m.distance ++
  " км; Ср. скорость: " ++ formatFixed3 m.speed ++
  " км/ч; Потрачено ккал: " ++ formatFixed3 m.calories ++ "."

/-- Training dataclass fields: action count, duration in hours, weight. -/
structure Training where
  action : ℚ
  duration : ℚ
  weight : ℚ

/-- Training.LEN_STEP class constant. -/
def Training.LEN_STEP : ℚ := 0.65

/-- Training.M_IN_KM class constant. -/
def Training.M_IN_KM : ℚ := 1000

/-- Training.MIN_IN_HOUR class constant. -/
def Training.MIN_IN_HOUR : ℚ := 60

/-- Body of Training.get_distance, parameterised by the dynamically bound
LEN_STEP (Swimming overrides it): action * LEN_STEP / M_IN_KM. -/
def Training.get_distance_with (len_step action : ℚ) : Except Err ℚ :=
  pydiv (action * len_step) Training.M_IN_KM

/-- Body of Training.get_mean_speed, parameterised by the dynamically
bound LEN_STEP: the explicit guard raising ValueError on zero duration,
then get_distance divided by the duration. -/
def Training.get_mean_speed_with (len_step action duration : ℚ) : Except Err ℚ :=
  if duration = 0 then .error .invalidDuration
  else do
    let d ← Training.get_distance_with len_step action
    pydiv d duration

def Training.get_distance (t : Training) : Except Err ℚ :=
  Training.get_distance_with Training.LEN_STEP t.action

def Training.get_mean_speed (t : Training) : Except Err ℚ :=
  Training.get_mean_speed_with Training.LEN_STEP t.action t.duration

/-- Training.get_spent_calories raises NotImplementedError naming the
dynamic type; on a bare Training instance that name is Training. -/
def Training.get_spent_calories (_ : Training) : Except Err ℚ :=
  .error (.notImplemented "Training")

/-- Training.show_training_info on a bare Training instance: constructor
arguments are evaluated left to right, and the class name is Training. -/
def Training.show_training_info (t : Training) : Except Err InfoMessage := do
  let d ← t.get_distance
  let v ← t.get_mean_speed
  let c ← t.get_spent_calories
  pure ⟨"Training", t.duration, d, v, c⟩

/-- Running dataclass: same fields as Training, no extras. -/
structure Running where
  action : ℚ
  duration : ℚ
  weight : ℚ

/-- Running.CALORIES_MEAN_SPEED_MULTIPLIER class constant. -/
def Running.CALORIES_MEAN_SPEED_MULTIPLIER : ℚ := 18

/-- Running.K1 class constant. -/
def Running.K1 : ℚ := 1.79

def Running.get_distance (r : Running) : Except Err ℚ :=
  Training.get_distance_with Training.LEN_STEP r.action

def Running.get_mean_speed (r : Running) : Except Err ℚ :=
  Training.get_mean_speed_with Training.LEN_STEP r.action r.duration

/-- Running.get_spent_calories:
(CALORIES_MEAN_SPEED_MULTIPLIER * get_mean_speed() + K1)
  * weight / M_IN_KM * duration * MIN_IN_HOUR. -/
def Running.get_spent_calories (r : Running) : Except Err ℚ := do
  let v ← r.get_mean_speed
  let a ← pydiv ((Running.CALORIES_MEAN_SPEED_MULTIPLIER * v + Running.K1) * r.weight)
      Training.M_IN_KM
  pure (a * r.duration * Training.MIN_IN_HOUR)

def Running.show_training_info (r : Running) : Except Err InfoMessage := do
  let d ← r.get_distance
  let v ← r.get_mean_speed
  let c ← r.get_spent_calories
  pure ⟨"Running", r.duration, d, v, c⟩

/-- SportsWalking dataclass: Training fields plus height in mm. -/
structure SportsWalking where
  action : ℚ
  duration : ℚ
  weight : ℚ
  height : ℚ

/-- SportsWalking.K_WALK class constant. -/
def SportsWalking.K_WALK : ℚ := 0.035

/-- SportsWalking.K_WALK2 class constant. -/
def SportsWalking.K_WALK2 : ℚ := 0.029

/-- SportsWalking.KM_H_M_S class constant. -/
def SportsWalking.KM_H_M_S : ℚ := 0.278

/-- SportsWalking.MM_TO_M class constant. -/
def SportsWalking.MM_TO_M : ℚ := 100

def SportsWalking.get_distance (w : SportsWalking) : Except Err ℚ :=
  Training.get_distance_with Training.LEN_STEP w.action

def SportsWalking.get_mean_speed (w : SportsWalking) : Except Err ℚ :=
  Training.get_mean_speed_with Training.LEN_STEP w.action w.duration

/-- SportsWalking.get_spent_calories:
(K_WALK * weight + (get_mean_speed() * KM_H_M_S) ** 2 / (height / MM_TO_M)
  * K_WALK2 * weight) * (duration * MIN_IN_HOUR).
Python evaluates get_mean_speed first, then height / MM_TO_M (a division
by the constant 100), then the outer division, which raises
ZeroDivisionError when height is zero. -/
def SportsWalking.get_spent_calories (w : SportsWalking) : Except Err ℚ := do
  let v ← w.get_mean_speed
  let hm ← pydiv w.height SportsWalking.MM_TO_M
  let q ← pydiv ((v * SportsWalking.KM_H_M_S) ^ 2) hm
  pure ((SportsWalking.K_WALK * w.weight + q * SportsWalking.K_WALK2 * w.weight)
      * (w.duration * Training.MIN_IN_HOUR))

def SportsWalking.show_training_info (w : SportsWalking) : Except Err InfoMessage := do
  let d ← w.get_distance
  let v ← w.get_mean_speed
  let c ← w.get_spent_calories
  pure ⟨"SportsWalking", w.duration, d, v, c⟩

/-- Swimming dataclass: Training fields plus pool length and lap count. -/
structure Swimming where
  action : ℚ
  duration : ℚ
  weight : ℚ
  length_pool : ℚ
  count_pool : ℚ

/-- Swimming.LEN_STEP overrides the class constant of Training. -/
def Swimming.LEN_STEP : ℚ := 1.38

/-- Swimming.K_SWM class constant. -/
def Swimming.K_SWM : ℚ := 1.1

/-- Swimming.K_SWM2 class constant. -/
def Swimming.K_SWM2 : ℚ := 2

/-- Swimming inherits get_distance, with LEN_STEP resolved to 1.38. -/
def Swimming.get_distance (s : Swimming) : Except Err ℚ :=
  Training.get_distance_with Swimming.LEN_STEP s.action

/-- Swimming.get_mean_speed overrides the base method:
count_pool * length_pool / M_IN_KM / duration, with no duration guard;
the divisions associate to the left. -/
def Swimming.get_mean_speed (s : Swimming) : Except Err ℚ := do
  let a ← pydiv (s.count_pool * s.length_pool) Training.M_IN_KM
  pydiv a s.duration

/-- Swimming.get_spent_calories:
(get_mean_speed() + K_SWM) * K_SWM2 * weight * duration. -/
def Swimming.get_spent_calories (s : Swimming) : Except Err ℚ := do
  let v ← s.get_mean_speed
  pure ((v + Swimming.K_SWM) * Swimming.K_SWM2 * s.weight * s.duration)

def Swimming.show_training_info (s : Swimming) : Except Err InfoMessage := do
  let d ← s.get_distance
  let v ← s.get_mean_speed
  let c ← s.get_spent_calories
  pure ⟨"Swimming", s.duration, d, v, c⟩

/-- The concrete training read_package can construct, tagged by its
dynamic class. -/
inductive SomeTraining where
  | run (r : Running)
  | wlk (w : SportsWalking)
  | swm (s : Swimming)

/-- The dynamic class name, as type(self).__name__ resolves it. -/
def SomeTraining.typeName : SomeTraining → String
  | .run _ => "Running"
  | .wlk _ => "SportsWalking"
  | .swm _ => "Swimming"

def SomeTraining.get_distance : SomeTraining → Except Err ℚ
  | .run r => r.get_distance
  | .wlk w => w.get_distance
  | .swm s => s.get_distance

def SomeTraining.get_mean_speed : SomeTraining → Except Err ℚ
  | .run r => r.get_mean_speed
  | .wlk w => w.get_mean_speed
  | .swm s => s.get_mean_speed

def SomeTraining.get_spent_calories : SomeTraining → Except Err ℚ
  | .run r => r.get_spent_calories
  | .wlk w => w.get_spent_calories
  | .swm s => s.get_spent_calories

def SomeTraining.show_training_info : SomeTraining → Except Err InfoMessage
  | .run r => r.show_training_info
  | .wlk w => w.show_training_info
  | .swm s => s.show_training_info

/-- The keys of the option_training dict, in declaration order. -/
def option_training_keys : List String := ["SWM", "RUN", "WLK"]

/-- read_package: filter out negative raw values and raise ValueError on
any (carrying the set display of the offenders), then check the workout
code against the dict keys and raise ValueError on an unknown one, then
apply the mapped class to the unpacked values; a dataclass constructor
called with the wrong number of positional arguments raises TypeError. -/
def read_package (workout_type : String) (data : List ℚ) : Except Err SomeTraining :=
  let data_wrong := data.filter (fun x => x < 0)
  if data_wrong ≠ [] then
    .error (.negativeValues data_wrong.toFinset)
  else if workout_type ∉ option_training_keys then
    .error (.unknownCode workout_type option_training_keys.toFinset)
  else
    match workout_type, data with
    | "SWM", [a, d, w, lp, cp] => .ok (.swm ⟨a, d, w, lp, cp⟩)
    | "RUN", [a, d, w] => .ok (.run ⟨a, d, w⟩)
    | "WLK", [a, d, w, h] => .ok (.wlk ⟨a, d, w, h⟩)
    | _, _ => .error .typeError

lemma pydiv_ok (a : ℚ) {b : ℚ} (hb : b ≠ 0) : pydiv a b = .ok (a / b) := by
  simp [pydiv, hb]

lemma pydiv_zero_denom (a : ℚ) : pydiv a 0 = .error .zeroDivision := by
  simp [pydiv]

lemma ok_bind {α β : Type} (x : α) (f : α → Except Err β) :
    (Except.ok x >>= f : Except Err β) = f x := rfl

lemma M_IN_KM_ne_zero : Training.M_IN_KM ≠ 0 := by
  norm_num [Training.M_IN_KM]

lemma get_distance_with_eq (step a : ℚ) :
    Training.get_distance_with step a = .ok (a * step / 1000) := by
  rw [Training.get_distance_with, pydiv_ok _ M_IN_KM_ne_zero]
  rfl

lemma get_mean_speed_with_ok (step a d : ℚ) (hd : d ≠ 0) :
    Training.get_mean_speed_with step a d = .ok (a * step / 1000 / d) := by
  rw [Training.get_mean_speed_with, if_neg hd]
  show Training.get_distance_with step a >>= _ = _
  rw [get_distance_with_eq, ok_bind, pydiv_ok _ hd]

lemma get_mean_speed_with_zero (step a : ℚ) :
    Training.get_mean_speed_with step a 0 = .error .invalidDuration := by
  rw [Training.get_mean_speed_with, if_pos rfl]

lemma get_mean_speed_with_invalid_iff (step a d : ℚ) :
    Training.get_mean_speed_with step a d = .error .invalidDuration ↔ d = 0 := by
  constructor
  · intro h
    by_contra hd
    rw [get_mean_speed_with_ok step a d hd] at h
    exact Except.noConfusion h
  · intro h
    subst h
    exact get_mean_speed_with_zero step a

lemma swimming_mean_speed_ok (s : Swimming) (hd : s.duration ≠ 0) :
    s.get_mean_speed = .ok (s.count_pool * s.length_pool / 1000 / s.duration) := by
  show pydiv (s.count_pool * s.length_pool) Training.M_IN_KM >>= _ = _
  rw [pydiv_ok _ M_IN_KM_ne_zero, ok_bind, pydiv_ok _ hd]
  rfl

lemma swimming_mean_speed_zero (s : Swimming) (hd : s.duration = 0) :
    s.get_mean_speed = .error .zeroDivision := by
  show pydiv (s.count_pool * s.length_pool) Training.M_IN_KM >>= _ = _
  rw [pydiv_ok _ M_IN_KM_ne_zero, ok_bind, hd, pydiv_zero_denom]

/-- C6: for every record of every variant, get_distance returns
action * LEN_STEP / 1000 without failing, where the resolved LEN_STEP is
0.65 for Training, Running and SportsWalking and 1.38 for Swimming. -/
theorem get_distance_spec :
    (∀ t : Training, t.get_distance = .ok (t.action * 0.65 / 1000)) ∧
    (∀ r : Running, r.get_distance = .ok (r.action * 0.65 / 1000)) ∧
    (∀ w : SportsWalking, w.get_distance = .ok (w.action * 0.65 / 1000)) ∧
    (∀ s : Swimming, s.get_distance = .ok (s.action * 1.38 / 1000)) := by
  refine ⟨fun t => ?_, fun r => ?_, fun w => ?_, fun s => ?_⟩ <;>
    simp [Training.get_distance, Running.get_distance, SportsWalking.get_distance,
      Swimming.get_distance, get_distance_with_eq, Training.LEN_STEP, Swimming.LEN_STEP]

/-- C4: the Swimming override of get_mean_speed returns
count_pool * length_pool / 1000 / duration whenever the duration is not
zero, and the result depends only on count_pool, length_pool and
duration: two Swimming records agreeing on those three fields (but with
any action counts) have equal mean speeds. -/
theorem swimming_mean_speed_spec :
    (∀ s : Swimming, s.duration ≠ 0 →
      s.get_mean_speed = .ok (s.count_pool * s.length_pool / 1000 / s.duration)) ∧
    (∀ s₁ s₂ : Swimming, s₁.count_pool = s₂.count_pool →
      s₁.length_pool = s₂.length_pool → s₁.duration = s₂.duration →
      s₁.get_mean_speed = s₂.get_mean_speed) := by
  constructor
  · exact fun s hd => swimming_mean_speed_ok s hd
  · intro s₁ s₂ h1 h2 h3
    simp only [Swimming.get_mean_speed, h1, h2, h3]

/-- C1 (amended): the duration guard raising InvalidDurationError exists
only in the inherited base method, so Running and SportsWalking raise
InvalidDurationError exactly when the duration is zero and otherwise
return the distance divided by the duration; the Swimming override
instead performs an unguarded division, raising ZeroDivisionError (never
InvalidDurationError) exactly when the duration is zero, and otherwise
returns the pool-based speed, which is not the distance divided by the
duration. -/
theorem mean_speed_guard_spec :
    (∀ r : Running, (r.get_mean_speed = .error .invalidDuration ↔ r.duration = 0) ∧
      (r.duration ≠ 0 → r.get_mean_speed = .ok (r.action * 0.65 / 1000 / r.duration))) ∧
    (∀ w : SportsWalking, (w.get_mean_speed = .error .invalidDuration ↔ w.duration = 0) ∧
      (w.duration ≠ 0 → w.get_mean_speed = .ok (w.action * 0.65 / 1000 / w.duration))) ∧
    (∀ s : Swimming, (s.get_mean_speed = .error .zeroDivision ↔ s.duration = 0) ∧
      s.get_mean_speed ≠ .error .invalidDuration ∧
      (s.duration ≠ 0 → s.get_mean_speed = .ok (s.count_pool * s.length_pool / 1000 / s.duration))) := by
  refine ⟨fun r => ⟨?_, fun hd => ?_⟩, fun w => ⟨?_, fun hd => ?_⟩,
    fun s => ⟨?_, ?_, fun hd => ?_⟩⟩
  · exact get_mean_speed_with_invalid_iff _ _ _
  · rw [Running.get_mean_speed, get_mean_speed_with_ok _ _ _ hd, Training.LEN_STEP]
  · exact get_mean_speed_with_invalid_iff _ _ _
  · rw [SportsWalking.get_mean_speed, get_mean_speed_with_ok _ _ _ hd, Training.LEN_STEP]
  · constructor
    · intro h
      by_contra hd
      rw [swimming_mean_speed_ok s hd] at h
      exact Except.noConfusion h
    · exact fun hd => swimming_mean_speed_zero s hd
  · by_cases hd : s.duration = 0
    · rw [swimming_mean_speed_zero s hd]
      intro h
      exact absurd (Except.error.inj h) (by intro h2; exact Err.noConfusion h2)
    · rw [swimming_mean_speed_ok s hd]
      exact fun h => Except.noConfusion h
  · exact swimming_mean_speed_ok s hd

/-- C1 counterexample: on the Swimming record of the sample driver with
the duration set to zero, the overridden get_mean_speed raises
ZeroDivisionError, not InvalidDurationError; and at duration one the
override returns 1 km/h while the distance divided by the duration is
0.9936 km/h, so the base formula is fully replaced. -/
theorem mean_speed_guard_cex :
    Swimming.get_mean_speed ⟨720, 0, 80, 25, 40⟩ = .error .zeroDivision ∧
    (Except.error Err.zeroDivision : Except Err ℚ) ≠ .error .invalidDuration ∧
    Swimming.get_mean_speed ⟨720, 1, 80, 25, 40⟩ = .ok 1 ∧
    Swimming.get_distance ⟨720, 1, 80, 25, 40⟩ = .ok 0.9936 ∧
    (0.9936 : ℚ) / 1 ≠ 1 := by
  refine ⟨swimming_mean_speed_zero _ rfl, by simp, ?_, ?_, by norm_num⟩
  · rw [swimming_mean_speed_ok _ (by norm_num)]
    norm_num
  · show Training.get_distance_with Swimming.LEN_STEP 720 = _
    rw [get_distance_with_eq]
    norm_num [Swimming.LEN_STEP]

lemma bind_eq_ok {α β : Type} {x : Except Err α} {f : α → Except Err β} {b : β}
    (h : (x >>= f) = .ok b) : ∃ a, x = .ok a ∧ f a = .ok b := by
  cases x with
  | error e =>
    rw [show ((Except.error e : Except Err α) >>= f) = .error e from rfl] at h
    exact Except.noConfusion h
  | ok a => exact ⟨a, rfl, h⟩

lemma filter_neg_eq_nil {data : List ℚ} (h : ∀ x ∈ data, (0:ℚ) ≤ x) :
    data.filter (fun x => x < 0) = [] := by
  induction data with
  | nil => rfl
  | cons a tl ih =>
    have ha : ¬ a < 0 := not_lt.mpr (h a (by simp))
    simp only [List.filter_cons, decide_eq_true_eq, if_neg ha]
    exact ih fun x hx => h x (by simp [hx])

lemma filter_neg_ne_nil {data : List ℚ} (h : ∃ x ∈ data, x < 0) :
    data.filter (fun x => x < 0) ≠ [] := by
  obtain ⟨x, hx, hneg⟩ := h
  intro hnil
  have hmem : x ∈ data.filter (fun x => x < 0) :=
    List.mem_filter.mpr ⟨hx, by simpa using hneg⟩
  rw [hnil] at hmem
  exact absurd hmem (List.not_mem_nil x)

lemma rp_neg (code : String) (data : List ℚ) (h : ∃ x ∈ data, x < 0) :
    read_package code data =
      .error (.negativeValues ((data.filter (fun x => x < 0)).toFinset)) := by
  simp only [read_package]
  rw [if_pos (filter_neg_ne_nil h)]

lemma rp_unknown (code : String) (data : List ℚ) (h : ∀ x ∈ data, (0:ℚ) ≤ x)
    (h2 : code ∉ option_training_keys) :
    read_package code data =
      .error (.unknownCode code option_training_keys.toFinset) := by
  simp only [read_package, filter_neg_eq_nil h, ne_eq, not_true_eq_false, if_false,
    reduceCtorEq]
  rw [if_pos h2]

lemma rp_run_ok (a d w : ℚ) (h : ∀ x ∈ ([a, d, w] : List ℚ), (0:ℚ) ≤ x) :
    read_package "RUN" [a, d, w] = .ok (.run ⟨a, d, w⟩) := by
  simp only [read_package, filter_neg_eq_nil h, ne_eq, not_true_eq_false, if_false,
    reduceCtorEq]
  rw [if_neg (by decide : ¬ "RUN" ∉ option_training_keys)]

lemma rp_wlk_ok (a d w h : ℚ) (hn : ∀ x ∈ ([a, d, w, h] : List ℚ), (0:ℚ) ≤ x) :
    read_package "WLK" [a, d, w, h] = .ok (.wlk ⟨a, d, w, h⟩) := by
  simp only [read_package, filter_neg_eq_nil hn, ne_eq, not_true_eq_false, if_false,
    reduceCtorEq]
  rw [if_neg (by decide : ¬ "WLK" ∉ option_training_keys)]

lemma rp_swm_ok (a d w lp cp : ℚ) (hn : ∀ x ∈ ([a, d, w, lp, cp] : List ℚ), (0:ℚ) ≤ x) :
    read_package "SWM" [a, d, w, lp, cp] = .ok (.swm ⟨a, d, w, lp, cp⟩) := by
  simp only [read_package, filter_neg_eq_nil hn, ne_eq, not_true_eq_false, if_false,
    reduceCtorEq]
  rw [if_neg (by decide : ¬ "SWM" ∉ option_training_keys)]

lemma rp_run_arity (data : List ℚ) (h : ∀ x ∈ data, (0:ℚ) ≤ x)
    (hlen : data.length ≠ 3) : read_package "RUN" data = .error .typeError := by
  simp only [read_package, filter_neg_eq_nil h, ne_eq, not_true_eq_false, if_false,
    reduceCtorEq]
  rw [if_neg (by decide : ¬ "RUN" ∉ option_training_keys)]
  rcases data with _ | ⟨a, _ | ⟨b, _ | ⟨c, _ | ⟨e, tl⟩⟩⟩⟩
  · rfl
  · rfl
  · rfl
  · exact absurd rfl hlen
  · rfl

lemma rp_wlk_arity (data : List ℚ) (h : ∀ x ∈ data, (0:ℚ) ≤ x)
    (hlen : data.length ≠ 4) : read_package "WLK" data = .error .typeError := by
  simp only [read_package, filter_neg_eq_nil h, ne_eq, not_true_eq_false, if_false,
    reduceCtorEq]
  rw [if_neg (by decide : ¬ "WLK" ∉ option_training_keys)]
  rcases data with _ | ⟨a, _ | ⟨b, _ | ⟨c, _ | ⟨e, _ | ⟨f, tl⟩⟩⟩⟩⟩
  · rfl
  · rfl
  · rfl
  · rfl
  · exact absurd rfl hlen
  · rfl

lemma rp_swm_arity (data : List ℚ) (h : ∀ x ∈ data, (0:ℚ) ≤ x)
    (hlen : data.length ≠ 5) : read_package "SWM" data = .error .typeError := by
  simp only [read_package, filter_neg_eq_nil h, ne_eq, not_true_eq_false, if_false,
    reduceCtorEq]
  rw [if_neg (by decide : ¬ "SWM" ∉ option_training_keys)]
  rcases data with _ | ⟨a, _ | ⟨b, _ | ⟨c, _ | ⟨e, _ | ⟨f, _ | ⟨g, tl⟩⟩⟩⟩⟩⟩
  · rfl
  · rfl
  · rfl
  · rfl
  · rfl
  · exact absurd rfl hlen
  · rfl

lemma running_calories_ok (r : Running) (hd : r.duration ≠ 0) :
    r.get_spent_calories = .ok ((18 * (r.action * 0.65 / 1000 / r.duration) + 1.79)
      * r.weight / 1000 * r.duration * 60) := by
  simp only [Running.get_spent_calories, Running.get_mean_speed,
    get_mean_speed_with_ok _ _ _ hd, ok_bind, pydiv_ok _ M_IN_KM_ne_zero]
  rfl

lemma walking_calories_ok (w : SportsWalking) (hh : w.height ≠ 0) (hd : w.duration ≠ 0) :
    w.get_spent_calories = .ok ((0.035 * w.weight +
      ((w.action * 0.65 / 1000 / w.duration) * 0.278) ^ 2 / (w.height / 100)
        * 0.029 * w.weight) * (w.duration * 60)) := by
  have h100 : (SportsWalking.MM_TO_M : ℚ) ≠ 0 := by norm_num [SportsWalking.MM_TO_M]
  have hhm : w.height / SportsWalking.MM_TO_M ≠ 0 := div_ne_zero hh h100
  simp only [SportsWalking.get_spent_calories, SportsWalking.get_mean_speed,
    get_mean_speed_with_ok _ _ _ hd, ok_bind, pydiv_ok _ h100, pydiv_ok _ hhm]
  rfl

lemma swimming_calories_ok (s : Swimming) (hd : s.duration ≠ 0) :
    s.get_spent_calories = .ok ((s.count_pool * s.length_pool / 1000 / s.duration + 1.1)
      * 2 * s.weight * s.duration) := by
  simp only [Swimming.get_spent_calories, swimming_mean_speed_ok s hd, ok_bind]
  rfl

lemma run_sample_distance : Running.get_distance ⟨15000, 1, 75⟩ = .ok 9.75 := by
  show Training.get_distance_with Training.LEN_STEP 15000 = _
  rw [get_distance_with_eq]
  norm_num [Training.LEN_STEP]

lemma run_sample_speed : Running.get_mean_speed ⟨15000, 1, 75⟩ = .ok 9.75 := by
  show Training.get_mean_speed_with Training.LEN_STEP 15000 1 = _
  rw [get_mean_speed_with_ok _ _ _ (by norm_num)]
  norm_num [Training.LEN_STEP]

lemma run_sample_calories : Running.get_spent_calories ⟨15000, 1, 75⟩ = .ok 797.805 := by
  rw [running_calories_ok _ (show (1:ℚ) ≠ 0 by norm_num)]
  norm_num

lemma wlk_sample_distance : SportsWalking.get_distance ⟨9000, 1, 75, 180⟩ = .ok 5.85 := by
  show Training.get_distance_with Training.LEN_STEP 9000 = _
  rw [get_distance_with_eq]
  norm_num [Training.LEN_STEP]

lemma wlk_sample_speed : SportsWalking.get_mean_speed ⟨9000, 1, 75, 180⟩ = .ok 5.85 := by
  show Training.get_mean_speed_with Training.LEN_STEP 9000 1 = _
  rw [get_mean_speed_with_ok _ _ _ (by norm_num)]
  norm_num [Training.LEN_STEP]

lemma wlk_sample_calories :
    SportsWalking.get_spent_calories ⟨9000, 1, 75, 180⟩ = .ok 349.251747525 := by
  rw [walking_calories_ok _ (show (180:ℚ) ≠ 0 by norm_num) (show (1:ℚ) ≠ 0 by norm_num)]
  norm_num

lemma swm_sample_distance : Swimming.get_distance ⟨720, 1, 80, 25, 40⟩ = .ok 0.9936 := by
  show Training.get_distance_with Swimming.LEN_STEP 720 = _
  rw [get_distance_with_eq]
  norm_num [Swimming.LEN_STEP]

lemma swm_sample_speed : Swimming.get_mean_speed ⟨720, 1, 80, 25, 40⟩ = .ok 1 := by
  rw [swimming_mean_speed_ok _ (show (1:ℚ) ≠ 0 by norm_num)]
  norm_num

lemma swm_sample_calories : Swimming.get_spent_calories ⟨720, 1, 80, 25, 40⟩ = .ok 336 := by
  rw [swimming_calories_ok _ (show (1:ℚ) ≠ 0 by norm_num)]
  norm_num

lemma format_one : formatFixed3 1 = "1.000" := by
  norm_num [formatFixed3, roundHalfEven, pad3]
  rfl

lemma format_975 : formatFixed3 9.75 = "9.750" := by
  norm_num [formatFixed3, roundHalfEven, pad3]
  rfl

lemma format_run_cal : formatFixed3 797.805 = "797.805" := by
  norm_num [formatFixed3, roundHalfEven, pad3]
  rfl

lemma format_swm_dist : formatFixed3 0.9936 = "0.994" := by
  norm_num [formatFixed3, roundHalfEven, pad3]
  rfl

lemma format_336 : formatFixed3 336 = "336.000" := by
  norm_num [formatFixed3, roundHalfEven, pad3]
  rfl

lemma format_585 : formatFixed3 5.85 = "5.850" := by
  norm_num [formatFixed3, roundHalfEven, pad3]
  rfl

lemma format_wlk_cal : formatFixed3 349.251747525 = "349.252" := by
  norm_num [formatFixed3, roundHalfEven, pad3]
  rfl

lemma show_info_type_run {r : Running} {msg : InfoMessage}
    (h : r.show_training_info = .ok msg) : msg.training_type = "Running" := by
  simp only [Running.show_training_info] at h
  obtain ⟨d, hd, h⟩ := bind_eq_ok h
  obtain ⟨v, hv, h⟩ := bind_eq_ok h
  obtain ⟨c, hc, h⟩ := bind_eq_ok h
  have h2 := Except.ok.inj h
  rw [← h2]

lemma show_info_type_wlk {w : SportsWalking} {msg : InfoMessage}
    (h : w.show_training_info = .ok msg) : msg.training_type = "SportsWalking" := by
  simp only [SportsWalking.show_training_info] at h
  obtain ⟨d, hd, h⟩ := bind_eq_ok h
  obtain ⟨v, hv, h⟩ := bind_eq_ok h
  obtain ⟨c, hc, h⟩ := bind_eq_ok h
  have h2 := Except.ok.inj h
  rw [← h2]

lemma show_info_type_swm {s : Swimming} {msg : InfoMessage}
    (h : s.show_training_info = .ok msg) : msg.training_type = "Swimming" := by
  simp only [Swimming.show_training_info] at h
  obtain ⟨d, hd, h⟩ := bind_eq_ok h
  obtain ⟨v, hv, h⟩ := bind_eq_ok h
  obtain ⟨c, hc, h⟩ := bind_eq_ok h
  have h2 := Except.ok.inj h
  rw [← h2]

/-- C2: for every workout code (known or not) and every raw data list
containing at least one negative value, read_package fails with
NegativeValueError carrying the deduplicated set of offending values;
since this runs before the code check, a negative value with an unknown
code reports the negative-value error. -/
theorem read_package_negative_spec (code : String) (data : List ℚ)
    (h : ∃ x ∈ data, x < 0) :
    read_package code data =
      .error (.negativeValues ((data.filter (fun x => x < 0)).toFinset)) :=
  rp_neg code data h

/-- Witness for C2 at the unknown code XYZ with data [-5, 1, 75]: the
negative-value error (set of offenders) wins over the unknown code. -/
theorem read_package_negative_spec_witness :
    read_package "XYZ" [-5, 1, 75] = .error (.negativeValues {-5}) := by
  have h := read_package_negative_spec "XYZ" [-5, 1, 75]
    ⟨-5, List.mem_cons_self _ _, by norm_num⟩
  rw [h]
  norm_num [List.filter]

/-- C3 (amended): Running get_spent_calories is
(18 * meanSpeed + 1.79) * weight / 1000 * duration * 60; the package
RUN [15000, 1, 75] constructs a Running training whose distance is
9.750 km, mean speed 9.750 km/h, and calories 797.805 kcal, the exact
value of the formula (18 * 9.75 + 1.79) * 75 / 1000 * 1 * 60 (not
approximately 792.00 as the claim put it). -/
theorem running_calories_spec :
    (∀ r : Running, r.duration ≠ 0 →
      r.get_spent_calories = .ok ((18 * (r.action * 0.65 / 1000 / r.duration) + 1.79)
        * r.weight / 1000 * r.duration * 60)) ∧
    read_package "RUN" [15000, 1, 75] = .ok (.run ⟨15000, 1, 75⟩) ∧
    Running.get_distance ⟨15000, 1, 75⟩ = .ok 9.75 ∧
    Running.get_mean_speed ⟨15000, 1, 75⟩ = .ok 9.75 ∧
    Running.get_spent_calories ⟨15000, 1, 75⟩ = .ok 797.805 ∧
    (18 * 9.75 + 1.79) * 75 / 1000 * 1 * 60 = (797.805 : ℚ) := by
  refine ⟨fun r hd => running_calories_ok r hd, ?_, run_sample_distance,
    run_sample_speed, run_sample_calories, by norm_num⟩
  exact rp_run_ok 15000 1 75 (by norm_num)

/-- C3 counterexample: the claimed formula evaluates to 797.805 kcal on
the RUN sample, and the code agrees; 792.00 is off by more than 5, so
the calories are not approximately 792.00. -/
theorem running_calories_cex :
    Running.get_spent_calories ⟨15000, 1, 75⟩ = .ok 797.805 ∧
    (18 * 9.75 + 1.79) * 75 / 1000 * 1 * 60 = (797.805 : ℚ) ∧
    (797.805 : ℚ) - 792 > 5 :=
  ⟨run_sample_calories, by norm_num, by norm_num⟩

/-- C5: for every SportsWalking record with nonzero height and nonzero
duration, get_spent_calories is (0.035 * weight +
(meanSpeed * 0.278) ^ 2 / (height / 100) * 0.029 * weight) * duration
* 60, where meanSpeed is the inherited step-based mean speed. -/
theorem sports_walking_calories_spec (w : SportsWalking)
    (hh : w.height ≠ 0) (hd : w.duration ≠ 0) :
    w.get_spent_calories = .ok ((0.035 * w.weight +
      ((w.action * 0.65 / 1000 / w.duration) * 0.278) ^ 2 / (w.height / 100)
        * 0.029 * w.weight) * w.duration * 60) := by
  rw [walking_calories_ok w hh hd]
  congr 1
  ring

/-- Witness for C5 at the WLK sample record (9000 steps, 1 h, 75 kg,
height 180). -/
theorem sports_walking_calories_spec_witness :
    SportsWalking.get_spent_calories ⟨9000, 1, 75, 180⟩ =
      .ok ((0.035 * 75 + ((9000 * 0.65 / 1000 / 1) * 0.278) ^ 2 / (180 / 100)
        * 0.029 * 75) * 1 * 60) :=
  sports_walking_calories_spec ⟨9000, 1, 75, 180⟩
    (show (180:ℚ) ≠ 0 by norm_num) (show (1:ℚ) ≠ 0 by norm_num)

/-- C7: with all-non-negative data, an unknown workout code fails with
UnknownWorkoutCodeError carrying the code and the set of valid codes,
while each of the three known codes constructs its mapped class by
positionally assigning the data to the declared fields. -/
theorem read_package_dispatch_spec :
    (∀ (code : String) (data : List ℚ), (∀ x ∈ data, (0:ℚ) ≤ x) →
      code ∉ ["SWM", "RUN", "WLK"] →
      read_package code data =
        .error (.unknownCode code ({"SWM", "RUN", "WLK"} : Finset String))) ∧
    (∀ a d w : ℚ, (∀ x ∈ ([a, d, w] : List ℚ), (0:ℚ) ≤ x) →
      read_package "RUN" [a, d, w] = .ok (.run ⟨a, d, w⟩)) ∧
    (∀ a d w h : ℚ, (∀ x ∈ ([a, d, w, h] : List ℚ), (0:ℚ) ≤ x) →
      read_package "WLK" [a, d, w, h] = .ok (.wlk ⟨a, d, w, h⟩)) ∧
    (∀ a d w lp cp : ℚ, (∀ x ∈ ([a, d, w, lp, cp] : List ℚ), (0:ℚ) ≤ x) →
      read_package "SWM" [a, d, w, lp, cp] = .ok (.swm ⟨a, d, w, lp, cp⟩)) := by
  refine ⟨fun code data h h2 => ?_, rp_run_ok, rp_wlk_ok, rp_swm_ok⟩
  exact rp_unknown code data h h2

/-- Whether the length of the raw data matches the field count of the
class the workout code maps to. -/
def arity_ok (code : String) (data : List ℚ) : Prop :=
  (code = "RUN" → data.length = 3) ∧ (code = "WLK" → data.length = 4) ∧
  (code = "SWM" → data.length = 5)

/-- C9 (amended): for data whose length matches the arity the code
requires, read_package succeeds exactly when every value is non-negative
and the code is one of the three known ones, so there is no
strict-positivity check: a RUN package with duration exactly zero is
constructed successfully, and the zero-duration error surfaces only when
get_mean_speed is invoked on the record. The original if-and-only-if
without the arity restriction is refuted by the TypeError of a
wrongly sized list. -/
theorem read_package_success_iff :
    (∀ (code : String) (data : List ℚ), arity_ok code data →
      ((∃ t, read_package code data = .ok t) ↔
        ((∀ x ∈ data, (0:ℚ) ≤ x) ∧ code ∈ ["SWM", "RUN", "WLK"]))) ∧
    (∀ a w : ℚ, 0 ≤ a → 0 ≤ w →
      read_package "RUN" [a, 0, w] = .ok (.run ⟨a, 0, w⟩) ∧
      Running.get_mean_speed ⟨a, 0, w⟩ = .error .invalidDuration) := by
  constructor
  · intro code data har
    constructor
    · rintro ⟨t, ht⟩
      by_cases hnn : ∀ x ∈ data, (0:ℚ) ≤ x
      · refine ⟨hnn, ?_⟩
        by_contra hmem
        rw [rp_unknown code data hnn hmem] at ht
        exact Except.noConfusion ht
      · push_neg at hnn
        rw [rp_neg code data (by simpa using hnn)] at ht
        exact Except.noConfusion ht
    · rintro ⟨hnn, hmem⟩
      simp only [List.mem_cons, List.not_mem_nil, or_false] at hmem
      rcases hmem with h | h | h <;> subst h
      · have hlen := har.2.2 rfl
        rcases data with _ | ⟨a, _ | ⟨b, _ | ⟨c, _ | ⟨d, _ | ⟨e, _ | ⟨f, tl⟩⟩⟩⟩⟩⟩ <;>
          simp only [List.length_cons, List.length_nil] at hlen <;> try omega
        exact ⟨_, rp_swm_ok a b c d e hnn⟩
      · have hlen := har.1 rfl
        rcases data with _ | ⟨a, _ | ⟨b, _ | ⟨c, _ | ⟨d, tl⟩⟩⟩⟩ <;>
          simp only [List.length_cons, List.length_nil] at hlen <;> try omega
        exact ⟨_, rp_run_ok a b c hnn⟩
      · have hlen := har.2.1 rfl
        rcases data with _ | ⟨a, _ | ⟨b, _ | ⟨c, _ | ⟨d, _ | ⟨e, tl⟩⟩⟩⟩⟩ <;>
          simp only [List.length_cons, List.length_nil] at hlen <;> try omega
        exact ⟨_, rp_wlk_ok a b c d hnn⟩
  · intro a w ha hw
    refine ⟨rp_run_ok a 0 w ?_, ?_⟩
    · intro x hx
      simp only [List.mem_cons, List.not_mem_nil, or_false] at hx
      rcases hx with h | h | h <;> subst h
      · exact ha
      · exact le_refl 0
      · exact hw
    · show Training.get_mean_speed_with Training.LEN_STEP a 0 = _
      exact get_mean_speed_with_zero _ _

/-- C9 counterexample: the list [1, 1] has no negative value and RUN is
a known code, yet read_package fails, with the arity TypeError, so
failure is not equivalent to a negative value or an unknown code. -/
theorem read_package_success_iff_cex :
    read_package "RUN" [1, 1] = .error .typeError ∧
    "RUN" ∈ ["SWM", "RUN", "WLK"] ∧
    ([1, 1] : List ℚ).filter (fun x => x < 0) = [] := by
  refine ⟨?_, by decide, ?_⟩
  · exact rp_run_arity [1, 1] (by norm_num) (by norm_num)
  · norm_num [List.filter]

/-- C10: read_package performs no arity check of its own: for a valid
code and all-non-negative data of the wrong length, the constructor call
fails with TypeError (not NegativeValueError or UnknownWorkoutCodeError),
and a wrongly sized list containing a negative value still reports
NegativeValueError, because value validation precedes construction. -/
theorem read_package_arity_spec :
    (∀ data : List ℚ, (∀ x ∈ data, (0:ℚ) ≤ x) → data.length ≠ 3 →
      read_package "RUN" data = .error .typeError) ∧
    (∀ data : List ℚ, (∀ x ∈ data, (0:ℚ) ≤ x) → data.length ≠ 4 →
      read_package "WLK" data = .error .typeError) ∧
    (∀ data : List ℚ, (∀ x ∈ data, (0:ℚ) ≤ x) → data.length ≠ 5 →
      read_package "SWM" data = .error .typeError) ∧
    (∀ a : ℚ, a < 0 → read_package "RUN" [a] = .error (.negativeValues {a})) := by
  refine ⟨rp_run_arity, rp_wlk_arity, rp_swm_arity, fun a ha => ?_⟩
  rw [rp_neg "RUN" [a] ⟨a, List.mem_cons_self _ _, ha⟩]
  simp [List.filter, ha]

/-- C8: for every training read_package constructs, the rendered summary
is exactly the MESSAGE template, with the four numeric fields
fixed-point with three decimal digits and the type field the concrete
class name (Running, SportsWalking or Swimming), never Training; and the
three sample packages of the driver render to their exact strings. -/
theorem show_training_info_message_spec :
    (∀ (code : String) (data : List ℚ) (t : SomeTraining) (msg : InfoMessage),
      read_package code data = .ok t → t.show_training_info = .ok msg →
      msg.training_type = t.typeName ∧ t.typeName ≠ "Training" ∧
      msg.get_message =
        "Тип тренировки: " ++ msg.training_type ++
        "; Длительность: " ++ formatFixed3 msg.duration ++
        " ч.; Дистанция: " ++ formatFixed3 msg.distance ++
        " км; Ср. скорость: " ++ formatFixed3 msg.speed ++
        " км/ч; Потрачено ккал: " ++ formatFixed3 msg.calories ++ ".") ∧
    Running.show_training_info ⟨15000, 1, 75⟩ =
      .ok ⟨"Running", 1, 9.75, 9.75, 797.805⟩ ∧
    InfoMessage.get_message ⟨"Running", 1, 9.75, 9.75, 797.805⟩ =
      "Тип тренировки: Running; Длительность: 1.000 ч.; Дистанция: 9.750 км; Ср. скорость: 9.750 км/ч; Потрачено ккал: 797.805." ∧
    Swimming.show_training_info ⟨720, 1, 80, 25, 40⟩ =
      .ok ⟨"Swimming", 1, 0.9936, 1, 336⟩ ∧
    InfoMessage.get_message ⟨"Swimming", 1, 0.9936, 1, 336⟩ =
      "Тип тренировки: Swimming; Длительность: 1.000 ч.; Дистанция: 0.994 км; Ср. скорость: 1.000 км/ч; Потрачено ккал: 336.000." ∧
    SportsWalking.show_training_info ⟨9000, 1, 75, 180⟩ =
      .ok ⟨"SportsWalking", 1, 5.85, 5.85, 349.251747525⟩ ∧
    InfoMessage.get_message ⟨"SportsWalking", 1, 5.85, 5.85, 349.251747525⟩ =
      "Тип тренировки: SportsWalking; Длительность: 1.000 ч.; Дистанция: 5.850 км; Ср. скорость: 5.850 км/ч; Потрачено ккал: 349.252." := by
  refine ⟨?_, ?_, ?_, ?_, ?_, ?_, ?_⟩
  · intro code data t msg hrp hshow
    refine ⟨?_, ?_, rfl⟩
    · cases t with
      | run r => exact show_info_type_run hshow
      | wlk w => exact show_info_type_wlk hshow
      | swm s => exact show_info_type_swm hshow
    · cases t with
      | run r => exact (by decide : ("Running" : String) ≠ "Training")
      | wlk w => exact (by decide : ("SportsWalking" : String) ≠ "Training")
      | swm s => exact (by decide : ("Swimming" : String) ≠ "Training")
  · simp only [Running.show_training_info, run_sample_distance, run_sample_speed,
      run_sample_calories, ok_bind]
    rfl
  · simp only [InfoMessage.get_message, format_one, format_975, format_run_cal]
    rfl
  · simp only [Swimming.show_training_info, swm_sample_distance, swm_sample_speed,
      swm_sample_calories, ok_bind]
    rfl
  · simp only [InfoMessage.get_message, format_one, format_swm_dist, format_336]
    rfl
  · simp only [SportsWalking.show_training_info, wlk_sample_distance, wlk_sample_speed,
      wlk_sample_calories, ok_bind]
    rfl
  · simp only [InfoMessage.get_message, format_one, format_585, format_wlk_cal]
    rfl
